import Mathlib

/-!
Verification of the portfolio contact-form backend.

The repository holds several near-identical Express request handlers.  The
definitions below are a shallow embedding of the two variants the claims are
about:

* `contactMain` — the handler of `src/server.js` (Groq classifier, gist-fetched
  policy, Resend dispatch, toggleable recaptcha whose verification result is
  only logged);
* `contactPart002` — the bare-token Groq variant of `src/unnamed/part_002`
  (recaptcha enforced with a 0.5 score threshold, decision comparison reading
  the undefined identifier `aiReply`).

External HTTP calls (recaptcha, gist fetches, chat completion, Resend) are
modelled by an `Env` record carrying each call's outcome (`Except Unit _`:
`error` = the promise rejected / threw).  The handlers return the HTTP response
together with a `Calls` record saying which outbound calls were issued, so that
"no external call is made" claims are statable.

JavaScript semantics embedded here:

* request-body fields are `Option String`; the `!x` guards use string
  truthiness (`undefined` and `""` are falsy);
* `JSON.parse` is modelled by `jsonParse`, a fuel-indexed recursive-descent
  parser of the JSON grammar (objects keep every member; property access takes
  the last duplicate, as `JSON.parse` does);
* `undefined < 0.5` is `false`, so a missing recaptcha score passes the
  threshold test (`jsLtHalf`);
* referencing an identifier that is not bound in the handler scope throws a
  `ReferenceError`; the scope of the part_002 handler at the decision
  comparison is made explicit in `part002Bindings`, and `lookupIdent` returns
  `none` for the unbound `aiReply`;
* `String.length` is UTF-16 code units in JS and code points here — identical
  on the ASCII inputs used throughout; Lean's whitespace class (space, tab,
  CR, LF) stands in for the JS `\s` class, which agrees on ASCII JSON text.
-/

set_option maxRecDepth 20000

namespace Portfolio

/-- JSON values as produced by `JSON.parse`.  Numbers keep their raw lexeme:
the handlers never read a numeric field, only compare `decision` against the
string "ALLOW". -/
inductive Json where
  | null
  | bool (b : Bool)
  | num (raw : String)
  | str (s : String)
  | arr (elems : List Json)
  | obj (fields : List (String × Json))

/-- JSON whitespace: space, tab, line feed, carriage return. -/
def isJsonWs (c : Char) : Bool :=
  c = ' ' || c = '\t' || c = '\n' || c = '\r'

/-- Drop leading JSON whitespace. -/
def skipWs : List Char → List Char
  | [] => []
  | c :: cs => if isJsonWs c then skipWs cs else c :: cs

/-- Value of a hexadecimal digit, if any. -/
def hexVal? (c : Char) : Option Nat :=
  if '0' ≤ c ∧ c ≤ '9' then some (c.toNat - 48)
  else if 'a' ≤ c ∧ c ≤ 'f' then some (c.toNat - 87)
  else if 'A' ≤ c ∧ c ≤ 'F' then some (c.toNat - 55)
  else none

/-- Body of a JSON string after the opening quote: returns the decoded
characters and the rest of the input after the closing quote.  Handles the
JSON escapes and rejects raw control characters, as `JSON.parse` does. -/
def parseStringBody : Nat → List Char → Option (List Char × List Char)
  | 0, _ => none
  | _, [] => none
  | fuel + 1, c :: cs =>
    if c = '"' then some ([], cs)
    else if c = '\\' then
      match cs with
      | [] => none
      | e :: cs1 =>
        let esc : Option (Char × List Char) :=
          if e = '"' then some ('"', cs1)
          else if e = '\\' then some ('\\', cs1)
          else if e = '/' then some ('/', cs1)
          else if e = 'b' then some ('\x08', cs1)
          else if e = 'f' then some ('\x0c', cs1)
          else if e = 'n' then some ('\n', cs1)
          else if e = 'r' then some ('\r', cs1)
          else if e = 't' then some ('\t', cs1)
          else if e = 'u' then
            match cs1 with
            | h1 :: h2 :: h3 :: h4 :: cs2 =>
              match hexVal? h1, hexVal? h2, hexVal? h3, hexVal? h4 with
              | some a, some b, some c2, some d =>
                some (Char.ofNat (((a * 16 + b) * 16 + c2) * 16 + d), cs2)
              | _, _, _, _ => none
            | _ => none
          else none
        match esc with
        | some (ch, rest) =>
          match parseStringBody fuel rest with
          | some (acc, rem) => some (ch :: acc, rem)
          | none => none
        | none => none
    else if c.toNat < 32 then none
    else
      match parseStringBody fuel cs with
      | some (acc, rem) => some (c :: acc, rem)
      | none => none

/-- Take the maximal run of leading decimal digits. -/
def takeDigits : List Char → List Char × List Char
  | [] => ([], [])
  | c :: cs =>
    if c.isDigit then
      let (d, r) := takeDigits cs
      (c :: d, r)
    else ([], c :: cs)

/-- Integer part of a JSON number: `0` or a nonzero digit followed by digits. -/
def parseIntPart : List Char → Option (List Char × List Char)
  | [] => none
  | c :: cs =>
    if c = '0' then some ([c], cs)
    else if c.isDigit then
      let (d, r) := takeDigits cs
      some (c :: d, r)
    else none

/-- Optional fractional part `.[0-9]+`. -/
def parseFracPart : List Char → Option (List Char × List Char)
  | '.' :: cs =>
    match cs with
    | c :: _ =>
      if c.isDigit then
        let (d, r) := takeDigits cs
        some ('.' :: d, r)
      else none
    | [] => none
  | cs => some ([], cs)

/-- Optional exponent part `[eE][+-]?[0-9]+`. -/
def parseExpPart : List Char → Option (List Char × List Char)
  | [] => some ([], [])
  | c :: cs =>
    if c = 'e' ∨ c = 'E' then
      match cs with
      | [] => none
      | s :: cs1 =>
        if s = '+' ∨ s = '-' then
          match cs1 with
          | [] => none
          | d :: _ =>
            if d.isDigit then
              let (ds, r) := takeDigits cs1
              some (c :: s :: ds, r)
            else none
        else if s.isDigit then
          let (ds, r) := takeDigits cs
          some (c :: ds, r)
        else none
    else some ([], c :: cs)

/-- A JSON number lexeme (sign, integer, fraction, exponent). -/
def parseNumber (cs : List Char) : Option (List Char × List Char) :=
  let (neg, cs1) :=
    match cs with
    | '-' :: r => ([('-' : Char)], r)
    | r => (([] : List Char), r)
  match parseIntPart cs1 with
  | none => none
  | some (ip, cs2) =>
    match parseFracPart cs2 with
    | none => none
    | some (fp, cs3) =>
      match parseExpPart cs3 with
      | none => none
      | some (ep, cs4) => some (neg ++ ip ++ fp ++ ep, cs4)

mutual

/-- One JSON value (fuel-indexed recursive descent). -/
def parseValue : Nat → List Char → Option (Json × List Char)
  | 0, _ => none
  | fuel + 1, cs =>
    match skipWs cs with
    | [] => none
    | 'n' :: 'u' :: 'l' :: 'l' :: rest => some (.null, rest)
    | 't' :: 'r' :: 'u' :: 'e' :: rest => some (.bool true, rest)
    | 'f' :: 'a' :: 'l' :: 's' :: 'e' :: rest => some (.bool false, rest)
    | '"' :: rest =>
      match parseStringBody (rest.length + 1) rest with
      | some (s, rem) => some (.str (String.mk s), rem)
      | none => none
    | c :: rest =>
      if c = '\x7b' then
        match skipWs rest with
        | d :: rem =>
          if d = '\x7d' then some (.obj [], rem)
          else parseMembers fuel (d :: rem) []
        | [] => none
      else if c = '[' then
        match skipWs rest with
        | ']' :: rem => some (.arr [], rem)
        | rest1 => parseElems fuel rest1 []
      else if c = '-' ∨ c.isDigit then
        match parseNumber (c :: rest) with
        | some (raw, rem) => some (.num (String.mk raw), rem)
        | none => none
      else none

/-- Array elements after the opening bracket (at least one element). -/
def parseElems : Nat → List Char → List Json → Option (Json × List Char)
  | 0, _, _ => none
  | fuel + 1, cs, acc =>
    match parseValue fuel cs with
    | none => none
    | some (v, rem) =>
      match skipWs rem with
      | ',' :: rem1 => parseElems fuel rem1 (acc ++ [v])
      | ']' :: rem1 => some (.arr (acc ++ [v]), rem1)
      | _ => none

/-- Object members after the opening brace (at least one member). -/
def parseMembers : Nat → List Char → List (String × Json) →
    Option (Json × List Char)
  | 0, _, _ => none
  | fuel + 1, cs, acc =>
    match skipWs cs with
    | '"' :: rest =>
      match parseStringBody (rest.length + 1) rest with
      | none => none
      | some (k, rest2) =>
        match skipWs rest2 with
        | ':' :: rest3 =>
          match parseValue fuel rest3 with
          | none => none
          | some (v, rem) =>
            match skipWs rem with
            | ',' :: rem1 => parseMembers fuel rem1 (acc ++ [(String.mk k, v)])
            | d :: rem1 =>
              if d = '\x7d' then some (.obj (acc ++ [(String.mk k, v)]), rem1)
              else none
            | [] => none
        | _ => none
    | _ => none

end

/-- `JSON.parse`: parse one value and require only whitespace after it. -/
def jsonParse (s : String) : Option Json :=
  let cs := s.toList
  match parseValue (3 * cs.length + 8) cs with
  | some (v, rem) =>
    match skipWs rem with
    | [] => some v
    | _ => none
  | none => none

/-- Property lookup on a parsed value, as JS `obj.k`: objects built by
`JSON.parse` keep the last duplicate key; any non-object yields `undefined`
(`none`). -/
def lookupLast : List (String × Json) → String → Option Json
  | [], _ => none
  | (k1, v) :: rest, k =>
    match lookupLast rest k with
    | some v1 => some v1
    | none => if k1 = k then some v else none

/-- Property access `v.k` on a parsed value known not to be `null`: objects
yield the field (`lookupLast`), every other non-null value (string, number,
boolean, array) yields `undefined` (`none`).  Access on `null` throws a
TypeError in JS — that case is `jsGetProp`. -/
def jGet : Json → String → Option Json
  | .obj fields, k => lookupLast fields k
  | _, _ => none

/-- Full JS property access `v.k` on a parsed JSON value: reading a property
of `null` throws a TypeError (`Except.error`); an object yields the field;
any other value yields `undefined`. -/
def jsGetProp : Json → String → Except Unit (Option Json)
  | .null, _ => .error ()
  | .obj fields, k => .ok (lookupLast fields k)
  | _, _ => .ok none

/-! ## Input validation (`src/server.js` utils, shared by every variant) -/

/-- A request-body string field; `none` is a missing (`undefined`) field. -/
structure Submission where
  name : Option String
  email : Option String
  message : Option String
  recaptchaToken : Option String

/-- JS truthiness of an optional string: `undefined` and `""` are falsy. -/
def truthy : Option String → Bool
  | none => false
  | some s => !(s == "")

/-- JS `String.prototype.trim` (whitespace from both ends), as a
kernel-reducible list traversal. -/
def jsTrim (s : String) : String :=
  let l := s.toList.dropWhile Char.isWhitespace
  String.mk ((l.reverse.dropWhile Char.isWhitespace).reverse)

/-- JS `String.prototype.split` with a one-character separator:
`splitChar '@' "a@@b".toList = [['a'], [], ['b']]`. -/
def splitChar (sep : Char) : List Char → List (List Char)
  | [] => [[]]
  | c :: cs =>
    if c == sep then [] :: splitChar sep cs
    else
      match splitChar sep cs with
      | [] => [[c]]
      | p :: rest => (c :: p) :: rest

/-- The first list is a prefix of the second. -/
def listStarts : List Char → List Char → Bool
  | [], _ => true
  | _, [] => false
  | p :: ps, c :: cs => p == c && listStarts ps cs

/-- A character admitted by the `[^\s@]` class of the email regex. -/
def emailChar (c : Char) : Bool :=
  !c.isWhitespace && !(c == '@')

/-- There is a `.` in the list with at least one character before it and at
least one after it (the `[^\s@]+\.[^\s@]+` split of the domain). -/
def dotThenMore : List Char → Bool
  | [] => false
  | c :: rest => (c == '.' && !rest.isEmpty) || dotThenMore rest

/-- See `dotThenMore`: the dot may not be the first character. -/
def hasDotSplit : List Char → Bool
  | [] => false
  | _ :: rest => dotThenMore rest

/-- `/^[^\s@]+@[^\s@]+\.[^\s@]+$/.test(email)`: exactly one `@` (neither
character class admits `@`), a nonempty local part, and a domain that splits
around an inner dot; no whitespace anywhere. -/
def validateEmailFormat (email : String) : Bool :=
  match splitChar '@' email.toList with
  | [a, b] =>
    !a.isEmpty && a.all emailChar && b.all emailChar && hasDotSplit b
  | _ => false

/-- `email.split("@")[1]?.toLowerCase()` membership in the disposable-domain
denylist (the `disposable-email-domains` package contents, passed in as
`dd`); no `@` means `undefined`, which is never in the list. -/
def isDisposableEmail (dd : List String) (email : String) : Bool :=
  match (splitChar '@' email.toList).get? 1 with
  | none => false
  | some d => dd.contains (String.mk (d.map Char.toLower))

/-- The handler's missing-field guard:
`!name || !email || !message || !recaptchaToken`. -/
def missingFields (sub : Submission) : Bool :=
  !truthy sub.name || !truthy sub.email || !truthy sub.message ||
    !truthy sub.recaptchaToken

/-- `!validateEmailFormat(email) || isDisposableEmail(email)`. -/
def badEmail (dd : List String) (email : String) : Bool :=
  !validateEmailFormat email || isDisposableEmail dd email

/-- `message.length > MAX_MESSAGE_LENGTH` with the constant cap 2000. -/
def tooLong (message : String) : Bool :=
  decide (message.length > 2000)

/-! ## External-call environment and responses -/

/-- Parsed body of the recaptcha `siteverify` reply: the handlers read only
`success` and (in the score variants) `score`. -/
structure CaptchaData where
  success : Bool
  score : Option ℚ

/-- Outcomes of the outbound HTTP calls a single request may make.
`Except.error ()` is a rejected promise (network failure or a body that is
not JSON); `Except.ok` carries what the handler reads from the reply.
`aiCall` carries `choices[0].message.content` (`none` when absent);
`resendCall` carries `response.ok`. -/
structure Env where
  recaptchaEnabled : Bool
  mode : String
  disposable : List String
  captchaResult : Except Unit CaptchaData
  modelFetch : Except Unit String
  ruleFetch : Except Unit String
  aiCall : Except Unit (Option String)
  resendCall : Except Unit Bool

/-- The single response a handler emits: either `res.status(s).json({error})`
or the unified `res.json({aiDecision, aiReason, success, emailSent})` (the
part_002 success path sends `{success, emailSent}` only, embedded with
`none` decision fields). -/
inductive Resp where
  | err (status : Nat) (msg : String)
  | ok (aiDecision : Option Json) (aiReason : Option Json)
      (success : Bool) (emailSent : Bool)

/-- Which outbound calls the request issued. -/
structure Calls where
  captcha : Bool
  gist : Bool
  classifier : Bool
  resend : Bool

/-- No outbound call. -/
def noCalls : Calls := ⟨false, false, false, false⟩

/-! ## `src/server.js` contact handler -/

/-- `content.replace(/^```json\s*|```$/g, "")`: the first alternative can
only match at the start of the string, the second only at its end; the two
matched regions never overlap when both apply. -/
def stripFence (s : String) : String :=
  let l := s.toList
  let l1 :=
    if listStarts "```json".toList l then (l.drop 7).dropWhile Char.isWhitespace
    else l
  let r := l1.reverse
  let l2 := if listStarts "```".toList r then (r.drop 3).reverse else l1
  String.mk l2

/-- `aiData.choices?.[0]?.message?.content?.trim() || "{}"` followed by the
fence strip and a second trim. -/
def aiContentString (contentOpt : Option String) : String :=
  let content :=
    match contentOpt with
    | none => "\x7b\x7d"
    | some c => if jsTrim c == "" then "\x7b\x7d" else jsTrim c
  jsTrim (stripFence content)

/-- The parsed classifier reply (`none` when `JSON.parse` throws, caught by
the inner `try` in the source). -/
def parseAiReply (contentOpt : Option String) : Option Json :=
  jsonParse (aiContentString contentOpt)

/-- `aiAnswer.decision === "ALLOW"`: true exactly when the property is the
string "ALLOW". -/
def isAllow : Option Json → Bool
  | some (.str s) => s == "ALLOW"
  | _ => false

/-- Classifier and dispatch stage of `src/server.js` (the outer `try` from
the Groq call onward).  `captchaCalled` records whether the earlier recaptcha
block ran; the gist fetch already succeeded producing the model/prompt pair,
which is sent in the completion request but does not influence the response.
After the inner parse succeeds, line 163 reads `aiAnswer.decision` in a
template literal: if the reply parsed to `null`, that property access throws
a TypeError, caught by the outer catch (lines 210–213) as the 500
"AI filter failed" response.  Otherwise, on an ALLOW decision the Resend call
is made; a non-ok Resend response sets `success`/`emailSent` false, a thrown
Resend error sets `success` false with `emailSent` still false, and in every
case the unified JSON response carries the decision and reason fields. -/
def mainAiStage (env : Env) (captchaCalled : Bool) : Resp × Calls :=
  match env.aiCall with
  | .error _ => (.err 500 "AI filter failed", ⟨captchaCalled, true, true, false⟩)
  | .ok contentOpt =>
    match parseAiReply contentOpt with
    | none => (.err 500 "AI validation failed", ⟨captchaCalled, true, true, false⟩)
    | some ans =>
      match jsGetProp ans "decision" with
      | .error _ => (.err 500 "AI filter failed", ⟨captchaCalled, true, true, false⟩)
      | .ok dec =>
        let reason := jGet ans "reason"
        if isAllow dec then
          match env.resendCall with
          | .ok true => (.ok dec reason true true, ⟨captchaCalled, true, true, true⟩)
          | .ok false => (.ok dec reason false false, ⟨captchaCalled, true, true, true⟩)
          | .error _ => (.ok dec reason false false, ⟨captchaCalled, true, true, true⟩)
        else (.ok dec reason false false, ⟨captchaCalled, true, true, false⟩)

/-- `src/server.js` after validation: the recaptcha block runs only when the
flag is set and the mode is SECURE, and its outcome is only logged — control
flow continues regardless of `env.captchaResult`; then `fetchAIConfig` issues
both gist fetches (`Promise.all`), a failure of either yielding the 500
config error before any classifier call. -/
def mainAfterValidation (env : Env) : Resp × Calls :=
  let captchaCalled := env.recaptchaEnabled && env.mode == "SECURE"
  match env.modelFetch, env.ruleFetch with
  | .ok _m, .ok _r => mainAiStage env captchaCalled
  | _, _ =>
    (.err 500 "Failed to load AI config", ⟨captchaCalled, true, false, false⟩)

/-- The `POST /api/contact` handler of `src/server.js`. -/
def contactMain (env : Env) (sub : Submission) : Resp × Calls :=
  if missingFields sub then (.err 400 "Missing fields", noCalls)
  else if badEmail env.disposable (sub.email.getD "") then
    (.err 400 "Invalid or disposable email", noCalls)
  else if tooLong (sub.message.getD "") then
    (.err 400 "Message too long (max 2000)", noCalls)
  else mainAfterValidation env

/-- The `POST /api/toggle-recaptcha` handler: flip the module-level flag and
answer with the new flag value.  First component: the new state of
`recaptchaEnabled`; second: the `recaptchaEnabled` field of the response. -/
def toggleRecaptcha (recaptchaEnabled : Bool) : Bool × Bool :=
  (!recaptchaEnabled, !recaptchaEnabled)

/-! ## `src/unnamed/part_002` contact handler (bare-token Groq variant) -/

/-- JS `x < 0.5` where `x` may be `undefined`: `undefined < 0.5` is false. -/
def jsLtHalf : Option ℚ → Bool
  | none => false
  | some s => decide (s < 1 / 2)

/-- `!recaptchaData.success || recaptchaData.score < 0.5`. -/
def captchaRejects (d : CaptchaData) : Bool :=
  !d.success || jsLtHalf d.score

/-- The string-valued identifiers bound in the part_002 handler scope at the
decision comparison: the destructured body fields and `aiAnswer` (line 103).
`aiReply`, read at line 106, is bound nowhere. -/
def part002Bindings (sub : Submission) (aiAnswer : Option String) :
    List (String × Option String) :=
  [("name", sub.name), ("email", sub.email), ("message", sub.message),
   ("recaptchaToken", sub.recaptchaToken), ("aiAnswer", aiAnswer)]

/-- Identifier lookup in a handler scope: the outer `none` is an unbound
identifier, i.e. a thrown `ReferenceError`; `some v` is a bound identifier
whose value is `v` (itself `none` for `undefined`). -/
def lookupIdent (scope : List (String × Option String)) (x : String) :
    Option (Option String) :=
  (scope.find? (fun p => p.1 == x)).map (fun p => p.2)

/-- The AI-check and dispatch stages of part_002.  Inside the `try`,
`aiAnswer` is bound to the trimmed reply content, then the guard compares the
identifier `aiReply`, which is not in scope: evaluating it throws a
`ReferenceError`, caught by the stage's `catch` producing the 500 response.
The comparison chain and the Resend block are embedded as written even though
they are unreachable through the unbound identifier. -/
def part002AiStage (env : Env) (sub : Submission) : Resp × Calls :=
  match env.aiCall with
  | .error _ => (.err 500 "AI validation failed", ⟨true, false, true, false⟩)
  | .ok contentOpt =>
    let aiAnswer := contentOpt.map jsTrim
    match lookupIdent (part002Bindings sub aiAnswer) "aiReply" with
    | none => (.err 500 "AI validation failed", ⟨true, false, true, false⟩)
    | some aiReply =>
      if !(aiReply == some "ALLOW") then
        (.err 422 "Message rejected by AI filter", ⟨true, false, true, false⟩)
      else if !truthy aiReply then
        (.err 500 "AI validation failed", ⟨true, false, true, false⟩)
      else
        match env.resendCall with
        | .error _ => (.err 500 "Email send failed", ⟨true, false, true, true⟩)
        | .ok false => (.err 500 "Failed to send email", ⟨true, false, true, true⟩)
        | .ok true => (.ok none none true true, ⟨true, false, true, true⟩)

/-- The `POST /api/contact` handler of `src/unnamed/part_002`: same
validation guards, then enforced recaptcha (a thrown verification call is the
500 error, an explicit failure or low score the 400 rejection), then the AI
stage. -/
def contactPart002 (env : Env) (sub : Submission) : Resp × Calls :=
  if missingFields sub then (.err 400 "Missing fields", noCalls)
  else if badEmail env.disposable (sub.email.getD "") then
    (.err 400 "Invalid or disposable email", noCalls)
  else if tooLong (sub.message.getD "") then
    (.err 400 "Message too long (max 2000)", noCalls)
  else
    match env.captchaResult with
    | .error _ =>
      (.err 500 "Recaptcha verification failed", ⟨true, false, false, false⟩)
    | .ok d =>
      if captchaRejects d then
        (.err 400 "Failed recaptcha verification", ⟨true, false, false, false⟩)
      else part002AiStage env sub

/-! ## Claim C1 — invariant: only validated, captcha-passing, ALLOW-classified
submissions reach the mail dispatcher.

In `src/server.js` the recaptcha block (lines 70–102) fetches the
verification and logs `recaptchaData.success`, but never returns on failure:
control falls through to the classifier and, on ALLOW, to the Resend call.
The input below has captcha enabled, SECURE mode, and a verification reply
with `success: false`, yet the email is dispatched. -/

/-- A well-formed submission used to exhibit the ignored captcha result. -/
def c1Sub : Submission :=
  ⟨some "Bo", some "bo@example.com", some "hello there", some "tok"⟩

/-- Environment for C1: captcha enabled and explicitly failing, policy
fetches succeed, classifier replies an ALLOW JSON object, Resend succeeds. -/
def c1Env : Env :=
  ⟨true, "SECURE", ["mailinator.com"], .ok ⟨false, none⟩, .ok "llama",
   .ok "be strict", .ok (some "\x7b\"decision\": \"ALLOW\", \"reason\": \"ok\"\x7d"),
   .ok true⟩

/-- C1: the invariant is violated by `src/server.js`.  With captcha enabled in
SECURE mode and the verification reply reporting failure, the handler still
invokes the classifier and the Resend dispatch and reports the email as sent:
the captcha stage's outcome does not gate the mail dispatcher. -/
theorem c1_captcha_result_ignored :
    c1Env.recaptchaEnabled = true ∧ c1Env.mode = "SECURE" ∧
    c1Env.captchaResult = Except.ok ⟨false, none⟩ ∧
    contactMain c1Env c1Sub =
      (Resp.ok (some (Json.str "ALLOW")) (some (Json.str "ok")) true true,
       ⟨true, true, true, true⟩) :=
  ⟨rfl, rfl, rfl, rfl⟩

/-! ## Claim C2 — unrecognized classifier replies. -/

/-- A well-formed submission for the C2 counterexample. -/
def c2Sub : Submission := ⟨some "Bo", some "bo@example.com", some "hi", some "tok"⟩

/-- Environment for C2: the classifier reply content is the empty string. -/
def c2Env : Env :=
  ⟨false, "LAB", ["mailinator.com"], .ok ⟨true, none⟩, .ok "llama",
   .ok "be strict", .ok (some ""), .ok true⟩

/-- C2 counterexample: an empty classifier reply — neither a bare token nor
JSON with a decision — is coerced to `"{}"` by the `|| "{}"` default, parses,
and yields the 200-style unified response with `success: false`, not the 500
"AI validation failed" server error the claim requires. -/
theorem c2_empty_reply_not_error :
    contactMain c2Env c2Sub =
      (Resp.ok none none false false, ⟨false, true, true, false⟩) ∧
    (Resp.ok none none false false : Resp) ≠ Resp.err 500 "AI validation failed" :=
  ⟨rfl, fun h => Resp.noConfusion h⟩

/-- C2 amended: a reply whose processed content fails `JSON.parse` yields the
500 "AI validation failed" error and no dispatch; a reply parsing to JSON
`null` (the text "null") throws a TypeError at the `aiAnswer.decision` access
of line 163, caught by the outer catch as the 500 "AI filter failed" error,
again with no dispatch; any other parsed reply whose `decision` is not the
string "ALLOW" (this includes the empty reply, coerced to the empty object,
and any unrecognized decision value) yields the unified 200-style response
with `success: false` and no dispatch.  In no case is the reply coerced into
an ALLOW outcome or an email sent. -/
theorem c2_unrecognized_reply_never_dispatches :
    ∀ (env : Env) (sub : Submission) (contentOpt : Option String) (m r : String),
    missingFields sub = false →
    badEmail env.disposable (sub.email.getD "") = false →
    tooLong (sub.message.getD "") = false →
    env.modelFetch = Except.ok m →
    env.ruleFetch = Except.ok r →
    env.aiCall = Except.ok contentOpt →
    (parseAiReply contentOpt = none →
      (contactMain env sub).1 = Resp.err 500 "AI validation failed" ∧
      (contactMain env sub).2.resend = false) ∧
    (parseAiReply contentOpt = some Json.null →
      (contactMain env sub).1 = Resp.err 500 "AI filter failed" ∧
      (contactMain env sub).2.resend = false) ∧
    (∀ ans, parseAiReply contentOpt = some ans → ans ≠ Json.null →
      isAllow (jGet ans "decision") = false →
      (contactMain env sub).1 =
        Resp.ok (jGet ans "decision") (jGet ans "reason") false false ∧
      (contactMain env sub).2.resend = false) := by
  intro env sub contentOpt m r h1 h2 h3 hm hr ha
  have hmain : contactMain env sub = mainAfterValidation env := by
    simp [contactMain, h1, h2, h3]
  have hstage : mainAfterValidation env =
      mainAiStage env (env.recaptchaEnabled && env.mode == "SECURE") := by
    simp [mainAfterValidation, hm, hr]
  refine ⟨?_, ?_, ?_⟩
  · intro hp
    rw [hmain, hstage]
    simp [mainAiStage, ha, hp]
  · intro hp
    rw [hmain, hstage]
    simp [mainAiStage, ha, hp, jsGetProp]
  · intro ans hp hne hallow
    have hjs : jsGetProp ans "decision" = Except.ok (jGet ans "decision") := by
      cases ans with
      | null => exact absurd rfl hne
      | bool b => rfl
      | num raw => rfl
      | str s => rfl
      | arr elems => rfl
      | obj fields => rfl
    rw [hmain, hstage]
    simp [mainAiStage, ha, hp, hjs, hallow]

/-- Submission for the C2 witness. -/
def c2WSub : Submission := ⟨some "Bo", some "bo@example.com", some "hi", some "tok"⟩

/-- Environment for the C2 witness: the classifier replies "maybe?", which is
not JSON. -/
def c2WEnv : Env :=
  ⟨false, "LAB", ["mailinator.com"], .ok ⟨true, none⟩, .ok "llama",
   .ok "be strict", .ok (some "maybe?"), .ok true⟩

/-- Environment for the second C2 witness run: the classifier replies the
text "null", which parses to JSON null. -/
def c2NEnv : Env :=
  ⟨false, "LAB", ["mailinator.com"], .ok ⟨true, none⟩, .ok "llama",
   .ok "be strict", .ok (some "null"), .ok true⟩

/-- C2 witness: the unparseable reply "maybe?" gets the 500 "AI validation
failed" error, the reply "null" the 500 "AI filter failed" error, and neither
run issues a Resend call. -/
theorem c2_unrecognized_reply_never_dispatches_witness :
    ((contactMain c2WEnv c2WSub).1 = Resp.err 500 "AI validation failed" ∧
     (contactMain c2WEnv c2WSub).2.resend = false) ∧
    ((contactMain c2NEnv c2WSub).1 = Resp.err 500 "AI filter failed" ∧
     (contactMain c2NEnv c2WSub).2.resend = false) :=
  ⟨(c2_unrecognized_reply_never_dispatches c2WEnv c2WSub (some "maybe?")
      "llama" "be strict" rfl rfl rfl rfl rfl rfl).1 rfl,
   (c2_unrecognized_reply_never_dispatches c2NEnv c2WSub (some "null")
      "llama" "be strict" rfl rfl rfl rfl rfl rfl).2.1 rfl⟩

/-! ## Claim C3 — over-long messages. -/

/-- C3 counterexample input: a disposable email together with a 2001-character
message. -/
def c3Sub : Submission :=
  ⟨some "Bo", some "bo@mailinator.com",
   some (String.mk (List.replicate 2001 'x')), some "tok"⟩

/-- Environment for the C3 counterexample. -/
def c3Env : Env :=
  ⟨false, "LAB", ["mailinator.com"], .ok ⟨true, none⟩, .ok "llama",
   .ok "be strict", .ok (some "\x7b\x7d"), .ok true⟩

/-- C3 counterexample: the message exceeds the 2000-character cap, yet because
the email check runs first and the domain is disposable, the response is the
InvalidEmail error, not MessageTooLong — the claim's "regardless of the email
field" fails. -/
theorem c3_invalid_email_preempts_length :
    tooLong (c3Sub.message.getD "") = true ∧
    contactMain c3Env c3Sub = (Resp.err 400 "Invalid or disposable email", noCalls) ∧
    (Resp.err 400 "Invalid or disposable email" : Resp) ≠
      Resp.err 400 "Message too long (max 2000)" := by
  refine ⟨?_, rfl, ?_⟩
  · show tooLong (String.mk (List.replicate 2001 'x')) = true
    rw [show tooLong (String.mk (List.replicate 2001 'x'))
        = decide ((List.replicate 2001 'x').length > 2000) from rfl,
      List.length_replicate]
    rfl
  · intro h
    injection h with h1 h2
    exact absurd h2 (by decide)

/-- C3 amended: a message over the 2000-character cap receives the
MessageTooLong error provided the required fields are present and the email is
valid and non-disposable; an invalid or disposable email takes precedence. -/
theorem c3_too_long_rejected_when_email_ok :
    ∀ (env : Env) (sub : Submission),
    missingFields sub = false →
    badEmail env.disposable (sub.email.getD "") = false →
    tooLong (sub.message.getD "") = true →
    contactMain env sub = (Resp.err 400 "Message too long (max 2000)", noCalls) := by
  intro env sub h1 h2 h3
  simp [contactMain, h1, h2, h3]

/-- C3 witness input: valid email, 2001-character message. -/
def c3WSub : Submission :=
  ⟨some "Bo", some "bo@example.com",
   some (String.mk (List.replicate 2001 'x')), some "tok"⟩

/-- Environment for the C3 witness. -/
def c3WEnv : Env :=
  ⟨true, "SECURE", ["mailinator.com"], .ok ⟨true, none⟩, .ok "llama",
   .ok "be strict", .ok (some "\x7b\x7d"), .ok true⟩

/-- C3 witness: the amended statement at a concrete over-long submission. -/
theorem c3_too_long_rejected_when_email_ok_witness :
    contactMain c3WEnv c3WSub = (Resp.err 400 "Message too long (max 2000)", noCalls) :=
  c3_too_long_rejected_when_email_ok c3WEnv c3WSub rfl rfl (by
    show tooLong (String.mk (List.replicate 2001 'x')) = true
    rw [show tooLong (String.mk (List.replicate 2001 'x'))
        = decide ((List.replicate 2001 'x').length > 2000) from rfl,
      List.length_replicate]
    rfl)

/-! ## Claim C4 — is the recaptcha token required only when captcha is
enabled?  The guard `!name || !email || !message || !recaptchaToken` does not
consult `recaptchaEnabled` or the mode: the token is required always. -/

/-- C4 counterexample input: all fields present except the recaptcha token. -/
def c4Sub : Submission := ⟨some "Bo", some "bo@example.com", some "hi", none⟩

/-- Environment for C4: captcha disabled and LAB mode, so the captcha stage
would be skipped. -/
def c4Env : Env :=
  ⟨false, "LAB", ["mailinator.com"], .ok ⟨true, none⟩, .ok "llama",
   .ok "be strict", .ok (some "\x7b\x7d"), .ok true⟩

/-- C4 counterexample: with captcha disabled (flag off, LAB mode) and name,
email, message present, the submission without `recaptchaToken` is still
rejected as MissingField, contradicting "required only when captcha is
enabled". -/
theorem c4_token_required_when_captcha_disabled :
    c4Env.recaptchaEnabled = false ∧ c4Env.mode = "LAB" ∧
    c4Sub.recaptchaToken = none ∧
    truthy c4Sub.name = true ∧ truthy c4Sub.email = true ∧
    truthy c4Sub.message = true ∧
    contactMain c4Env c4Sub = (Resp.err 400 "Missing fields", noCalls) :=
  ⟨rfl, rfl, rfl, rfl, rfl, rfl, rfl⟩

/-- C4 amended: the validator requires `recaptchaToken` unconditionally — a
submission whose token is absent or empty is rejected as MissingField in
every configuration, captcha enabled or not. -/
theorem c4_missing_token_always_missing_field :
    ∀ (env : Env) (sub : Submission),
    truthy sub.recaptchaToken = false →
    contactMain env sub = (Resp.err 400 "Missing fields", noCalls) := by
  intro env sub h
  have hm : missingFields sub = true := by simp [missingFields, h]
  simp [contactMain, hm]

/-- C4 witness: the amended statement at the concrete token-less input. -/
theorem c4_missing_token_always_missing_field_witness :
    contactMain c4Env c4Sub = (Resp.err 400 "Missing fields", noCalls) :=
  c4_missing_token_always_missing_field c4Env c4Sub rfl

/-! ## Claim C5 — missing fields short-circuit before any external call. -/

/-- C5: a submission with any required field empty or absent receives the
MissingField error and the request issues no outbound call at all — no
captcha verification, no gist fetch, no classifier call, no Resend call. -/
theorem c5_missing_field_no_external_call :
    ∀ (env : Env) (sub : Submission),
    (truthy sub.name = false ∨ truthy sub.email = false ∨
     truthy sub.message = false ∨ truthy sub.recaptchaToken = false) →
    contactMain env sub = (Resp.err 400 "Missing fields", noCalls) := by
  intro env sub h
  have hm : missingFields sub = true := by
    rcases h with h | h | h | h <;> simp [missingFields, h]
  simp [contactMain, hm]

/-- C5 witness input: the email field is missing. -/
def c5Sub : Submission := ⟨some "Bo", none, some "hi", some "tok"⟩

/-- Environment for the C5 witness. -/
def c5Env : Env :=
  ⟨true, "SECURE", ["mailinator.com"], .ok ⟨true, none⟩, .ok "llama",
   .ok "be strict", .ok (some "\x7b\x7d"), .ok true⟩

/-- C5 witness: concrete missing-email submission, no calls issued. -/
theorem c5_missing_field_no_external_call_witness :
    contactMain c5Env c5Sub = (Resp.err 400 "Missing fields", noCalls) :=
  c5_missing_field_no_external_call c5Env c5Sub (Or.inr (Or.inl rfl))

/-! ## Claim C6 — captcha acceptance condition of the score variants
(`src/unnamed/part_002` lines 61–77, same logic in part_000 lines 97–111). -/

/-- C6: the verifier accepts exactly when the reply reports success and any
present score is at least 1/2 (a missing score passes, since JS
`undefined < 0.5` is false); and an explicit rejection — reply received,
`captchaRejects` true — produces the 400 client-error response. -/
theorem c6_captcha_accept_characterization :
    (∀ d : CaptchaData,
      captchaRejects d = false ↔
        (d.success = true ∧ ∀ s ∈ d.score, (1 : ℚ) / 2 ≤ s)) ∧
    (∀ (env : Env) (sub : Submission) (d : CaptchaData),
      missingFields sub = false →
      badEmail env.disposable (sub.email.getD "") = false →
      tooLong (sub.message.getD "") = false →
      env.captchaResult = Except.ok d →
      captchaRejects d = true →
      (contactPart002 env sub).1 = Resp.err 400 "Failed recaptcha verification") := by
  constructor
  · intro d
    obtain ⟨succ, sc⟩ := d
    cases succ <;> cases sc <;> simp [captchaRejects, jsLtHalf, not_lt]
  · intro env sub d h1 h2 h3 hc hrej
    simp [contactPart002, h1, h2, h3, hc, hrej]

/-- C6 witness input. -/
def c6Sub : Submission := ⟨some "Bo", some "bo@example.com", some "hi", some "tok"⟩

/-- Environment for the C6 witness: the verification reply reports failure. -/
def c6Env : Env :=
  ⟨true, "SECURE", ["mailinator.com"], .ok ⟨false, none⟩, .ok "llama",
   .ok "be strict", .ok (some "ALLOW"), .ok true⟩

/-- C6 witness: success with no score is accepted; an explicit failure on an
otherwise valid submission yields the 400 rejection. -/
theorem c6_captcha_accept_characterization_witness :
    captchaRejects ⟨true, none⟩ = false ∧
    (contactPart002 c6Env c6Sub).1 = Resp.err 400 "Failed recaptcha verification" :=
  ⟨(c6_captcha_accept_characterization.1 ⟨true, none⟩).mpr
      ⟨rfl, fun _s hs => nomatch hs⟩,
   c6_captcha_accept_characterization.2 c6Env c6Sub ⟨false, none⟩
     rfl rfl rfl rfl rfl⟩

/-! ## Claim C7 — policy fetch is all-or-nothing. -/

/-- C7: if either gist fetch fails, `fetchAIConfig` returns null and the
handler answers the single 500 config error; the gist call was made but the
classifier and dispatcher are never invoked. -/
theorem c7_policy_fetch_failure_no_classifier :
    ∀ (env : Env) (sub : Submission),
    missingFields sub = false →
    badEmail env.disposable (sub.email.getD "") = false →
    tooLong (sub.message.getD "") = false →
    (env.modelFetch = Except.error () ∨ env.ruleFetch = Except.error ()) →
    (contactMain env sub).1 = Resp.err 500 "Failed to load AI config" ∧
    (contactMain env sub).2.gist = true ∧
    (contactMain env sub).2.classifier = false ∧
    (contactMain env sub).2.resend = false := by
  intro env sub h1 h2 h3 hf
  have hmain : contactMain env sub = mainAfterValidation env := by
    simp [contactMain, h1, h2, h3]
  rw [hmain]
  rcases hf with h | h
  · cases hr : env.ruleFetch <;> simp [mainAfterValidation, h, hr]
  · cases hm2 : env.modelFetch <;> simp [mainAfterValidation, h, hm2]

/-- C7 witness input. -/
def c7Sub : Submission := ⟨some "Bo", some "bo@example.com", some "hi", some "tok"⟩

/-- Environment for the C7 witness: the model gist fetch throws while the
prompt fetch succeeds. -/
def c7Env : Env :=
  ⟨true, "SECURE", ["mailinator.com"], .ok ⟨true, none⟩, .error (),
   .ok "be strict", .ok (some "\x7b\x7d"), .ok true⟩

/-- C7 witness: concrete partial fetch failure ends in the 500 config error
with no classifier or Resend call. -/
theorem c7_policy_fetch_failure_no_classifier_witness :
    (contactMain c7Env c7Sub).1 = Resp.err 500 "Failed to load AI config" ∧
    (contactMain c7Env c7Sub).2.gist = true ∧
    (contactMain c7Env c7Sub).2.classifier = false ∧
    (contactMain c7Env c7Sub).2.resend = false :=
  c7_policy_fetch_failure_no_classifier c7Env c7Sub rfl rfl rfl (Or.inl rfl)

/-! ## Claim C8 — approved but undeliverable. -/

/-- C8: when the classifier decision is ALLOW but the Resend call returns a
non-ok response or throws, the unified response still carries
`aiDecision: "ALLOW"` with `success: false` and `emailSent: false`, and the
Resend call was indeed made — distinguishing "approved but undeliverable"
from a filter rejection. -/
theorem c8_dispatch_failure_reports_allow :
    ∀ (env : Env) (sub : Submission) (contentOpt : Option String)
      (ans : Json) (m r : String),
    missingFields sub = false →
    badEmail env.disposable (sub.email.getD "") = false →
    tooLong (sub.message.getD "") = false →
    env.modelFetch = Except.ok m →
    env.ruleFetch = Except.ok r →
    env.aiCall = Except.ok contentOpt →
    parseAiReply contentOpt = some ans →
    jGet ans "decision" = some (Json.str "ALLOW") →
    (env.resendCall = Except.ok false ∨ env.resendCall = Except.error ()) →
    (contactMain env sub).1 =
      Resp.ok (some (Json.str "ALLOW")) (jGet ans "reason") false false ∧
    (contactMain env sub).2.resend = true := by
  intro env sub contentOpt ans m r h1 h2 h3 hm hr ha hp hd hfail
  have hmain : contactMain env sub = mainAfterValidation env := by
    simp [contactMain, h1, h2, h3]
  have hstage : mainAfterValidation env =
      mainAiStage env (env.recaptchaEnabled && env.mode == "SECURE") := by
    simp [mainAfterValidation, hm, hr]
  have hjs : jsGetProp ans "decision" = Except.ok (some (Json.str "ALLOW")) := by
    cases ans <;> simp_all [jsGetProp, jGet]
  rw [hmain, hstage]
  rcases hfail with hf | hf <;> simp [mainAiStage, ha, hp, hjs, hd, isAllow, hf]

/-- C8 witness input. -/
def c8Sub : Submission := ⟨some "Bo", some "bo@example.com", some "hi", some "tok"⟩

/-- Environment for the C8 witness: ALLOW reply, Resend replies non-ok. -/
def c8Env : Env :=
  ⟨true, "SECURE", ["mailinator.com"], .ok ⟨true, none⟩, .ok "llama",
   .ok "be strict",
   .ok (some "\x7b\"decision\": \"ALLOW\", \"reason\": \"ok\"\x7d"), .ok false⟩

/-- The parsed ALLOW reply of the C8 witness. -/
def c8Ans : Json :=
  .obj [("decision", .str "ALLOW"), ("reason", .str "ok")]

/-- C8 witness: concrete approved-but-undeliverable submission. -/
theorem c8_dispatch_failure_reports_allow_witness :
    (contactMain c8Env c8Sub).1 =
      Resp.ok (some (Json.str "ALLOW")) (some (Json.str "ok")) false false ∧
    (contactMain c8Env c8Sub).2.resend = true :=
  c8_dispatch_failure_reports_allow c8Env c8Sub
    (some "\x7b\"decision\": \"ALLOW\", \"reason\": \"ok\"\x7d") c8Ans
    "llama" "be strict" rfl rfl rfl rfl rfl rfl rfl rfl (Or.inl rfl)

/-! ## Claim C9 — the recaptcha toggle. -/

/-- C9: each toggle call flips the flag and answers with the new state, and
two consecutive toggles restore the original flag value. -/
theorem c9_toggle_flips_and_involutive :
    ∀ b : Bool,
      (toggleRecaptcha b).1 = !b ∧
      (toggleRecaptcha b).2 = (toggleRecaptcha b).1 ∧
      (toggleRecaptcha (toggleRecaptcha b).1).1 = b := by
  decide

/-! ## Claim C10 — the bare-token Groq variant always fails its AI stage. -/

/-- C10: in `src/unnamed/part_002`, any submission that passes validation and
captcha verification hits the comparison `aiReply !== "ALLOW"` at line 106,
but `aiReply` is bound nowhere in the handler scope (the reply was stored in
`aiAnswer`); the `ReferenceError` is caught by the stage's `catch`, so the
response is always the 500 "AI validation failed" error and the Resend call
is never made, whatever the classifier replied. -/
theorem c10_part002_ai_stage_always_fails :
    ∀ (env : Env) (sub : Submission) (d : CaptchaData),
    missingFields sub = false →
    badEmail env.disposable (sub.email.getD "") = false →
    tooLong (sub.message.getD "") = false →
    env.captchaResult = Except.ok d →
    captchaRejects d = false →
    (contactPart002 env sub).1 = Resp.err 500 "AI validation failed" ∧
    (contactPart002 env sub).2.resend = false := by
  intro env sub d h1 h2 h3 hc hacc
  have hpart : contactPart002 env sub = part002AiStage env sub := by
    simp [contactPart002, h1, h2, h3, hc, hacc]
  rw [hpart]
  cases ha : env.aiCall with
  | error e => simp [part002AiStage, ha]
  | ok contentOpt =>
    have hlook :
        lookupIdent (part002Bindings sub (contentOpt.map jsTrim)) "aiReply"
          = none := rfl
    simp [part002AiStage, ha, hlook]

/-- C10 witness input. -/
def c10Sub : Submission := ⟨some "Bo", some "bo@example.com", some "hi", some "tok"⟩

/-- Environment for the C10 witness: captcha passes and the classifier even
replies the bare token "ALLOW" — the reply that should have been accepted. -/
def c10Env : Env :=
  ⟨true, "SECURE", ["mailinator.com"], .ok ⟨true, none⟩, .ok "llama",
   .ok "be strict", .ok (some "ALLOW"), .ok true⟩

/-- C10 witness: the concrete ALLOW-replying run still ends in the 500 error
with no dispatch. -/
theorem c10_part002_ai_stage_always_fails_witness :
    (contactPart002 c10Env c10Sub).1 = Resp.err 500 "AI validation failed" ∧
    (contactPart002 c10Env c10Sub).2.resend = false :=
  c10_part002_ai_stage_always_fails c10Env c10Sub ⟨true, none⟩
    rfl rfl rfl rfl rfl

end Portfolio
